import Mathlib

/-!
Verification of the conversational-memory chatbot
(`streamlit_chatbot_memoria_groq.py`).

The program keeps a per-session list of chat turns (dicts with `role` and
`content` string fields), sends the trailing window of that list to an
external completion provider, and renders the reply.  The definitions below
embed the program's logic: credential resolution (`get_api_key`), memory
initialization (`ensure_memory`), the clear-button reset, the export
formatting, the trailing-window slice, and the submission handler with its
try/except around the provider call.  The external provider is abstracted as
a function returning `Except String String`: `.ok r` models a successful call
whose first choice's message content is `r`, and `.error e` models any raised
exception whose textual description (`str(e)`) is `e`.
-/

/-- One element of `st.session_state.messages`: a dict
`{"role": ..., "content": ...}` with both fields strings. -/
structure ChatTurn where
  role : String
  content : String
deriving DecidableEq

/-- Python truthiness of a string: only the empty string is falsy. -/
def strTruthy (s : String) : Bool := s ≠ ""

/-- Python truthiness of an optional string: `None` and `""` are falsy. -/
def optTruthy : Option String → Bool
  | none => false
  | some s => strTruthy s

/-- Embeds `get_api_key` (lines 16-21).  `secrets` is the value of
`st.secrets.get("GROQ_API_KEY", None)` and `env` the value of
`os.getenv("GROQ_API_KEY")`.  The code runs `if not key: key = os.getenv(...)`,
so a falsy secret (absent or empty) triggers the environment fallback. -/
def get_api_key (secrets env : Option String) : Option String :=
  if optTruthy secrets then secrets else env

/-- Embeds `ensure_memory` (lines 27-29): the `messages` argument is the
session state's existing memory when the key `"messages"` is present, `none`
otherwise; only in the `none` case is the memory initialized. -/
def ensure_memory (messages : Option (List ChatTurn)) (system_prompt : String) :
    List ChatTurn :=
  match messages with
  | none => [⟨"system", system_prompt⟩]
  | some ms => ms

/-- Embeds the `clear_btn` branch (lines 58-59):
`st.session_state.messages = [{"role": "system", "content": system_prompt}]`.
The prior memory is the first argument; the assignment discards it. -/
def clearMemory (_old : List ChatTurn) (system_prompt : String) :
    List ChatTurn :=
  [⟨"system", system_prompt⟩]

/-- Python's `str.upper()`, character by character (the roles appearing in
this program are ASCII, where per-character upper-casing agrees with
Python's). -/
def pyUpper (s : String) : String :=
  ⟨s.data.map Char.toUpper⟩

/-- Embeds the export loop body (lines 75-79): keep the non-system turns and
render each as `f"{m['role'].upper()}: {m['content']}"`. -/
def exportLines (messages : List ChatTurn) : List String :=
  (messages.filter (fun m => m.role != "system")).map
    (fun m => pyUpper m.role ++ ": " ++ m.content)

/-- Embeds the export blob (line 80): `"\n\n".join(lines)`. -/
def exportChat (messages : List ChatTurn) : String :=
  String.intercalate "\n\n" (exportLines messages)

/-- Python's trailing slice `xs[-n:]` for `n ≥ 0`: for positive `n` it is the
last `min (length xs) n` elements; `xs[-0:]` is `xs[0:]`, the whole list. -/
def pySliceLast (n : Nat) (xs : List α) : List α :=
  if n = 0 then xs else xs.drop (xs.length - n)

/-- Embeds line 91: `context = st.session_state.messages[-int(max_ctx):]`. -/
def context (max_ctx : Nat) (messages : List ChatTurn) : List ChatTurn :=
  pySliceLast max_ctx messages

/-- Embeds the error template of line 103:
`f"Lo siento, ocurrió un error al llamar a Groq: `{e}`"`. -/
def errorReply (e : String) : String :=
  "Lo siento, ocurrió un error al llamar a Groq: `" ++ e ++ "`"

/-- Embeds the try/except of lines 94-103: on success `assistant_reply` is the
first choice's message content, and any exception is caught and rendered via
`errorReply`; nothing propagates past the handler. -/
def assistant_reply (provider : List ChatTurn → Except String String)
    (ctx : List ChatTurn) : String :=
  match provider ctx with
  | .ok reply => reply
  | .error e => errorReply e

/-- Embeds the chat-input handler (lines 84-106): under
`if user_input and api_key`, append the user turn, derive the trailing
window, call the provider (fail-soft), and append the assistant turn.  When
the condition is falsy the whole block is skipped and the memory is
untouched. -/
def handleSubmission (api_key : Option String) (max_ctx : Nat)
    (provider : List ChatTurn → Except String String)
    (messages : List ChatTurn) (user_input : String) : List ChatTurn :=
  if strTruthy user_input && optTruthy api_key then
    let m1 := messages ++ [⟨"user", user_input⟩]
    let ctx := context max_ctx m1
    m1 ++ [⟨"assistant", assistant_reply provider ctx⟩]
  else
    messages

/-- Appending turns one by one, as the handler does across a session. -/
def appendAll (init : List ChatTurn) (ts : List ChatTurn) : List ChatTurn :=
  ts.foldl (fun acc t => acc ++ [t]) init

lemma appendAll_eq (init ts : List ChatTurn) : appendAll init ts = init ++ ts := by
  induction ts generalizing init with
  | nil => simp [appendAll]
  | cons t ts ih =>
    simp only [appendAll, List.foldl_cons] at *
    rw [ih (init ++ [t])]
    simp

/-- C1: for every memory of length L and window size K with 4 ≤ K ≤ 64, the
derived window has length `min L K`, is the final `min L K` elements of the
memory in their original order (the memory is the untouched prefix followed
by the window), and when K exceeds L the window is the whole memory. -/
theorem window_derivation (K : Nat) (xs : List ChatTurn)
    (h4 : 4 ≤ K) (h64 : K ≤ 64) :
    (context K xs).length = min xs.length K ∧
    xs.take (xs.length - K) ++ context K xs = xs ∧
    (xs.length ≤ K → context K xs = xs) := by
  have hK : ¬ (K = 0) := by omega
  simp only [context, pySliceLast, if_neg hK]
  refine ⟨?_, List.take_append_drop _ _, ?_⟩
  · rw [List.length_drop]; omega
  · intro hLK
    have h0 : xs.length - K = 0 := by omega
    rw [h0, List.drop_zero]

/-- Witness for C1 at K = 24 and a two-turn memory. -/
theorem window_derivation_witness :
    (context 24 [⟨"system", "s"⟩, ⟨"user", "hola"⟩]).length
        = min ([⟨"system", "s"⟩, ⟨"user", "hola"⟩] : List ChatTurn).length 24 ∧
    ([⟨"system", "s"⟩, ⟨"user", "hola"⟩] : List ChatTurn).take
        (([⟨"system", "s"⟩, ⟨"user", "hola"⟩] : List ChatTurn).length - 24) ++
        context 24 [⟨"system", "s"⟩, ⟨"user", "hola"⟩]
        = [⟨"system", "s"⟩, ⟨"user", "hola"⟩] ∧
    (([⟨"system", "s"⟩, ⟨"user", "hola"⟩] : List ChatTurn).length ≤ 24 →
      context 24 [⟨"system", "s"⟩, ⟨"user", "hola"⟩]
        = [⟨"system", "s"⟩, ⟨"user", "hola"⟩]) :=
  window_derivation 24 [⟨"system", "s"⟩, ⟨"user", "hola"⟩] (by decide) (by decide)

/-- C2: for a memory whose first element is the system turn and whose
remaining turns are non-system history, with length L and window size
N ≥ 4, the derived window contains a system turn iff L ≤ N; once the
history exceeds N-1 turns the system instruction is dropped. -/
theorem system_drop (N : Nat) (t : ChatTurn) (rest : List ChatTurn)
    (hN : 4 ≤ N) (hsys : t.role = "system")
    (hrest : ∀ u ∈ rest, u.role ≠ "system") :
    (∃ u ∈ context N (t :: rest), u.role = "system") ↔
      (t :: rest).length ≤ N := by
  have hN0 : ¬ (N = 0) := by omega
  constructor
  · rintro ⟨u, hu, hurole⟩
    by_contra hlen
    push_neg at hlen
    simp only [context, pySliceLast, if_neg hN0] at hu
    have hpos : 1 ≤ (t :: rest).length - N := by
      simp only [List.length_cons] at hlen ⊢; omega
    obtain ⟨k, hk⟩ : ∃ k, (t :: rest).length - N = k + 1 :=
      ⟨_, (Nat.succ_pred_eq_of_pos hpos).symm⟩
    rw [hk, List.drop_succ_cons] at hu
    exact hrest u (List.drop_subset _ _ hu) hurole
  · intro hlen
    have hctx : context N (t :: rest) = t :: rest := by
      simp only [context, pySliceLast, if_neg hN0]
      have h0 : (t :: rest).length - N = 0 := by omega
      rw [h0, List.drop_zero]
    exact ⟨t, by rw [hctx]; exact List.mem_cons_self _ _, hsys⟩

/-- Witness for C2 at N = 4 and a two-turn memory. -/
theorem system_drop_witness :
    (∃ u ∈ context 4 [⟨"system", "s"⟩, ⟨"user", "hola"⟩], u.role = "system") ↔
      ([⟨"system", "s"⟩, ⟨"user", "hola"⟩] : List ChatTurn).length ≤ 4 :=
  system_drop 4 ⟨"system", "s"⟩ [⟨"user", "hola"⟩] (by decide) (by decide)
    (by decide)

/-- C3: with a truthy credential and a nonempty submission, if the provider
call raises an exception whose description is `msg`, the handler returns
normally with exactly a user turn and an assistant turn appended, and the
assistant turn's content contains `msg` as a literal substring. -/
theorem invocation_error_failsoft (api_key : String) (max_ctx : Nat)
    (provider : List ChatTurn → Except String String)
    (messages : List ChatTurn) (user_input msg : String)
    (hkey : strTruthy api_key = true)
    (hinput : strTruthy user_input = true)
    (hfail : provider (context max_ctx (messages ++ [⟨"user", user_input⟩]))
      = Except.error msg) :
    ∃ c, handleSubmission (some api_key) max_ctx provider messages user_input
        = messages ++ [⟨"user", user_input⟩, ⟨"assistant", c⟩] ∧
      ∃ a b, c = a ++ msg ++ b := by
  refine ⟨errorReply msg, ?_,
    "Lo siento, ocurrió un error al llamar a Groq: `", "`", ?_⟩
  · simp [handleSubmission, optTruthy, hkey, hinput, assistant_reply, hfail]
  · simp [errorReply, String.append_assoc]

/-- Witness for C3: a provider that raises with message "timeout". -/
theorem invocation_error_failsoft_witness :
    ∃ c, handleSubmission (some "k") 24 (fun _ => Except.error "timeout")
        [⟨"system", "s"⟩] "hola"
        = [⟨"system", "s"⟩] ++ [⟨"user", "hola"⟩, ⟨"assistant", c⟩] ∧
      ∃ a b, c = a ++ "timeout" ++ b :=
  invocation_error_failsoft "k" 24 (fun _ => Except.error "timeout")
    [⟨"system", "s"⟩] "hola" "timeout" (by decide) (by decide) rfl

/-- C4 counterexample: with no credential the handler leaves the memory
completely unchanged — the user turn is NOT appended, contradicting the
claim that the memory equals the old memory plus the user's turn. -/
theorem missing_credential_counterexample :
    handleSubmission none 24 (fun _ => Except.error "timeout")
        [⟨"system", "s"⟩] "hola"
      ≠ [⟨"system", "s"⟩] ++ [⟨"user", "hola"⟩] := by
  decide

/-- C4 (amended): when no credential is resolvable (absent or empty), the
handler makes no provider call (its result does not depend on the provider)
and the memory is left completely unchanged: no user turn and no assistant
turn is appended. -/
theorem missing_credential (api_key : Option String) (max_ctx : Nat)
    (p₁ p₂ : List ChatTurn → Except String String)
    (messages : List ChatTurn) (user_input : String)
    (hkey : optTruthy api_key = false) :
    handleSubmission api_key max_ctx p₁ messages user_input = messages ∧
    handleSubmission api_key max_ctx p₁ messages user_input
      = handleSubmission api_key max_ctx p₂ messages user_input := by
  constructor <;> simp [handleSubmission, hkey]

/-- Witness for C4 at a concrete memory and two distinct providers. -/
theorem missing_credential_witness :
    handleSubmission none 24 (fun _ => Except.error "timeout")
        [⟨"system", "s"⟩] "hola" = [⟨"system", "s"⟩] ∧
    handleSubmission none 24 (fun _ => Except.error "timeout")
        [⟨"system", "s"⟩] "hola"
      = handleSubmission none 24 (fun _ => Except.ok "hi")
        [⟨"system", "s"⟩] "hola" :=
  missing_credential none 24 (fun _ => Except.error "timeout")
    (fun _ => Except.ok "hi") [⟨"system", "s"⟩] "hola" (by decide)

/-- C5: after any sequence of N appends to a fresh memory (initialized by
`ensure_memory` with one system turn) with no reset, the length is N+1 and
the first element is still the system turn: growth is unbounded and nothing
is deduplicated. -/
theorem memory_growth (system_prompt : String) (ts : List ChatTurn) :
    (appendAll (ensure_memory none system_prompt) ts).length = ts.length + 1 ∧
    (appendAll (ensure_memory none system_prompt) ts).head?
      = some ⟨"system", system_prompt⟩ := by
  rw [appendAll_eq]
  constructor
  · simp [ensure_memory]
  · simp [ensure_memory]

/-- C6: for every prior memory and prompt p, the clear-button reset yields a
memory of length exactly 1 whose sole element is the system turn with
content p. -/
theorem reset_spec (old : List ChatTurn) (p : String) :
    (clearMemory old p).length = 1 ∧ clearMemory old p = [⟨"system", p⟩] :=
  ⟨rfl, rfl⟩

/-- C7: `ensure_memory` initializes a missing memory to the single system
turn and leaves any existing memory unchanged, for every existing state and
every prompt argument. -/
theorem ensure_idempotent (p : String) (ms : List ChatTurn) :
    ensure_memory none p = [⟨"system", p⟩] ∧ ensure_memory (some ms) p = ms :=
  ⟨rfl, rfl⟩

/-- C8: the export drops a leading system turn for any remaining history,
renders non-system turns as upper-cased `ROLE: content` joined by blank
lines for arbitrary contents, and on the spec's example memory produces
exactly the specified string. -/
theorem export_spec :
    (∀ s rest, exportChat (⟨"system", s⟩ :: rest) = exportChat rest) ∧
    (∀ u a, exportChat [⟨"user", u⟩, ⟨"assistant", a⟩]
        = "USER: " ++ u ++ "\n\n" ++ ("ASSISTANT: " ++ a)) ∧
    exportChat [⟨"system", "S"⟩, ⟨"user", "hi"⟩, ⟨"assistant", "hello"⟩]
      = "USER: hi\n\nASSISTANT: hello" := by
  refine ⟨?_, ?_, ?_⟩
  · intro s rest
    simp [exportChat, exportLines]
  · intro u a
    have hu : pyUpper "user" = "USER" := by decide
    have ha : pyUpper "assistant" = "ASSISTANT" := by decide
    have h1 : ("USER" ++ ": " : String) = "USER: " := by decide
    have h2 : ("ASSISTANT" ++ ": " : String) = "ASSISTANT: " := by decide
    have e1 : exportChat [⟨"user", u⟩, ⟨"assistant", a⟩]
        = pyUpper "user" ++ ": " ++ u ++ "\n\n"
          ++ (pyUpper "assistant" ++ ": " ++ a) := rfl
    rw [e1, hu, ha, h1, h2]
  · decide

/-- C9 counterexample: when the secret store provides the empty string and
the environment provides "envkey", the code returns the environment value,
not the store's value — the claim that the store value is returned whenever
the store provides one is false at this input. -/
theorem credential_counterexample :
    get_api_key (some "") (some "envkey") = some "envkey" ∧
    (some "envkey" : Option String) ≠ some "" := by
  decide

/-- C9 (amended): the secret-store value is returned whenever the store
provides a truthy (non-empty) value; otherwise — store absent or providing
the empty string — the environment value is returned as-is. -/
theorem credential_resolution (secrets env : Option String) :
    (optTruthy secrets = true → get_api_key secrets env = secrets) ∧
    (optTruthy secrets = false → get_api_key secrets env = env) := by
  constructor <;> intro h <;> simp [get_api_key, h]

/-- Witness for C9: a truthy secret wins; an absent secret falls back. -/
theorem credential_resolution_witness :
    get_api_key (some "sk") (some "ek") = some "sk" ∧
    get_api_key none (some "ek") = some "ek" :=
  ⟨(credential_resolution (some "sk") (some "ek")).1 (by decide),
   (credential_resolution none (some "ek")).2 (by decide)⟩

/-- C10: with a truthy credential and a nonempty submission, the handler
appends exactly two turns — the user turn carrying the submitted text, then
an assistant turn — and every pre-existing element keeps its value and
position, whether the provider succeeds or raises. -/
theorem submission_frame (api_key : String) (max_ctx : Nat)
    (provider : List ChatTurn → Except String String)
    (messages : List ChatTurn) (user_input : String)
    (hkey : strTruthy api_key = true)
    (hinput : strTruthy user_input = true) :
    ∃ c, handleSubmission (some api_key) max_ctx provider messages user_input
        = messages ++ [⟨"user", user_input⟩, ⟨"assistant", c⟩] := by
  refine ⟨assistant_reply provider
    (context max_ctx (messages ++ [⟨"user", user_input⟩])), ?_⟩
  simp [handleSubmission, optTruthy, hkey, hinput]

/-- Witness for C10 with a succeeding provider. -/
theorem submission_frame_witness :
    ∃ c, handleSubmission (some "k") 24 (fun _ => Except.ok "hi")
        [⟨"system", "s"⟩] "hola"
        = [⟨"system", "s"⟩] ++ [⟨"user", "hola"⟩, ⟨"assistant", c⟩] :=
  submission_frame "k" 24 (fun _ => Except.ok "hi") [⟨"system", "s"⟩] "hola"
    (by decide) (by decide)
